import Mathlib

/-!
Verification development for the gesture-driven particle experience.

The embedding follows the TypeScript sources:
- the stage controller in `src/unnamed/part_000` (App component),
- the per-frame particle animator in `src/unnamed/part_001` (ParticleScene),
- the shape generators in `src/utils/shapes.ts` (second revision in the file),
- the enums in the types module.

JavaScript numbers are modelled as exact rationals where the code only uses
field operations, and as real numbers where the code calls transcendental
library functions (Math.cos, Math.sin, Math.sqrt, Math.exp).  Calls to
Math.random() are modelled by explicit random-input streams `rnd : ℕ → _`
whose values are assumed to lie in [0, 1) where a claim needs that fact.
-/

/-- Stages of the experience, from the AppStage enum in the types module. -/
inductive AppStage
  | INTRO
  | EARTH
  | EVEREST
  | NAME
  | HEART
  | FIREWORKS
  deriving DecidableEq

/-- Gesture values, from the HandGesture enum in the types module. -/
inductive HandGesture
  | NONE
  | OPEN
  | CLOSED
  deriving DecidableEq

/-- Modelled from the spec: the COLORS record lives in `constants.ts`, which is
not part of the provided sources.  The spec only requires a default display
color associated with each stage, so colors are modelled as symbolic names,
one per COLORS field referenced by the App component. -/
inductive ColorName
  | DEFAULT
  | EARTH
  | EVEREST
  | NAME
  | HEART
  | FIREWORKS
  deriving DecidableEq

/-- Ordered stage list, from STAGE_ORDER in `src/unnamed/part_000`. -/
def STAGE_ORDER : List AppStage :=
  [AppStage.INTRO, AppStage.EARTH, AppStage.EVEREST, AppStage.NAME,
   AppStage.HEART, AppStage.FIREWORKS]

/-- Lookup STAGE_ORDER[i]; the code only indexes with values 1..5. -/
def stageAt (i : ℕ) : AppStage := STAGE_ORDER.getD i AppStage.INTRO

/-- Index update from the setCurrentStageIndex updater in
`src/unnamed/part_000` lines 49-51: `next = prev + 1;
nextIndex = next >= STAGE_ORDER.length ? 1 : next`. -/
def advanceIndex (prev : ℕ) : ℕ :=
  if prev + 1 ≥ STAGE_ORDER.length then 1 else prev + 1

/-- Default color selection from the switch statement in
`src/unnamed/part_000` lines 54-60; the switch has no INTRO case, so the
color is left unchanged for INTRO. -/
def colorFor (stage : AppStage) (old : ColorName) : ColorName :=
  match stage with
  | AppStage.INTRO => old
  | AppStage.EARTH => ColorName.EARTH
  | AppStage.EVEREST => ColorName.EVEREST
  | AppStage.NAME => ColorName.NAME
  | AppStage.HEART => ColorName.HEART
  | AppStage.FIREWORKS => ColorName.FIREWORKS

/-- Controller state of the App component: currentStageIndex, hasStarted,
the prevGesture ref (which equals the last processed gesture between
events), and particleColor. -/
structure CState where
  stageIdx : ℕ
  started : Bool
  prevGesture : HandGesture
  color : ColorName
  deriving DecidableEq

/-- Initial controller state from the useState initializers in
`src/unnamed/part_000` lines 20-24. -/
def initState : CState :=
  { stageIdx := 0, started := false, prevGesture := HandGesture.NONE,
    color := ColorName.DEFAULT }

/-- Processing of one (de-duplicated) gesture event by the App component.
First handleGestureChange runs (lines 35-40): it records the gesture and,
on a first CLOSED, startExperience (lines 26-33) sets hasStarted, jumps the
index to 1 and selects the EARTH color.  Then the effect on
[gesture, hasStarted] (lines 42-66) runs against the updated state: before
start it only records prevGesture; after start an OPEN to CLOSED edge
advances the index via advanceIndex and selects the new default color, and
prevGesture is always updated to the new gesture. -/
def gestureStep (s : CState) (g : HandGesture) : CState :=
  let s1 :=
    if g = HandGesture.CLOSED ∧ s.started = false then
      { s with started := true, stageIdx := 1, color := ColorName.EARTH }
    else s
  if s1.started = false then
    { s1 with prevGesture := g }
  else if s1.prevGesture = HandGesture.OPEN ∧ g = HandGesture.CLOSED then
    { s1 with stageIdx := advanceIndex s1.stageIdx,
              color := colorFor (stageAt (advanceIndex s1.stageIdx)) s1.color,
              prevGesture := g }
  else
    { s1 with prevGesture := g }

/-- Run of the controller over a sequence of gesture events. -/
def runGestures (s : CState) (gs : List HandGesture) : CState :=
  List.foldl gestureStep s gs

/-- C1: after the experience has started, an OPEN to CLOSED gesture edge
advances the stage index by exactly one when not at the last stage, wraps
from the last stage to index 1 (never to index 0), and every other gesture
transition leaves the stage index unchanged. -/
theorem C1_stage_advance (s : CState) (g : HandGesture)
    (hs : s.started = true) :
    (s.prevGesture = HandGesture.OPEN → g = HandGesture.CLOSED →
      ((s.stageIdx + 1 < STAGE_ORDER.length →
          (gestureStep s g).stageIdx = s.stageIdx + 1) ∧
       (s.stageIdx + 1 ≥ STAGE_ORDER.length →
          (gestureStep s g).stageIdx = 1) ∧
       (gestureStep s g).stageIdx ≠ 0)) ∧
    (¬(s.prevGesture = HandGesture.OPEN ∧ g = HandGesture.CLOSED) →
      (gestureStep s g).stageIdx = s.stageIdx) := by
  have hlen : STAGE_ORDER.length = 6 := rfl
  constructor
  · intro hp hg
    subst hg
    have hstep : (gestureStep s HandGesture.CLOSED).stageIdx = advanceIndex s.stageIdx := by
      simp [gestureStep, hs, hp]
    rw [hstep]
    unfold advanceIndex
    rw [hlen]
    refine ⟨fun h => ?_, fun h => ?_, ?_⟩
    · rw [if_neg (by omega)]
    · rw [if_pos (by omega)]
    · split_ifs with h
      · omega
      · omega
  · intro hn
    rcases Decidable.em (s.prevGesture = HandGesture.OPEN ∧ g = HandGesture.CLOSED) with h | h
    · exact absurd h hn
    · simp [gestureStep, hs, h]

/-- Witness for C1 at concrete states: wrapping from the last stage lands at
index 1, and a CLOSED to CLOSED transition leaves the index unchanged. -/
theorem C1_witness :
    (gestureStep
      { stageIdx := 5, started := true, prevGesture := HandGesture.OPEN,
        color := ColorName.DEFAULT } HandGesture.CLOSED).stageIdx = 1 ∧
    (gestureStep
      { stageIdx := 2, started := true, prevGesture := HandGesture.CLOSED,
        color := ColorName.DEFAULT } HandGesture.CLOSED).stageIdx = 2 :=
  ⟨((C1_stage_advance _ _ rfl).1 rfl rfl).2.1 (by decide),
   (C1_stage_advance _ _ rfl).2 (by decide)⟩

/-- C5 counterexample: from the initial state, the gesture sequence
[OPEN, CLOSED] reaches stage index 2 (EVEREST), not index 1 (EARTH): the
first CLOSED both starts the experience (jumping to index 1) and is seen by
the stage effect as an OPEN to CLOSED edge, which immediately advances the
index once more. -/
theorem C5_counterexample :
    (runGestures initState [HandGesture.OPEN, HandGesture.CLOSED]).stageIdx ≠ 1 ∧
    (runGestures initState [HandGesture.OPEN, HandGesture.CLOSED]).stageIdx = 2 := by
  decide

/-- C5 as amended: before start, non-CLOSED gestures change neither the
stage index nor the started flag; a CLOSED gesture starts the experience,
and lands at index 1 with the EARTH default color exactly when the
previously observed gesture was not OPEN, while a preceding OPEN makes the
start jump be followed at once by an advance to index 2. -/
theorem C5_start_behavior (s : CState) (g : HandGesture)
    (hs : s.started = false) :
    (g ≠ HandGesture.CLOSED →
      (gestureStep s g).stageIdx = s.stageIdx ∧
      (gestureStep s g).started = false) ∧
    (g = HandGesture.CLOSED →
      (gestureStep s g).started = true ∧
      (s.prevGesture ≠ HandGesture.OPEN →
        (gestureStep s g).stageIdx = 1 ∧
        (gestureStep s g).color = ColorName.EARTH) ∧
      (s.prevGesture = HandGesture.OPEN →
        (gestureStep s g).stageIdx = 2)) := by
  constructor
  · intro hg
    simp [gestureStep, hs, hg]
  · intro hg
    subst hg
    refine ⟨?_, fun hp => ?_, fun hp => ?_⟩
    · rcases Decidable.em (s.prevGesture = HandGesture.OPEN) with hp | hp <;>
        simp [gestureStep, hs, hp]
    · simp [gestureStep, hs, hp]
    · simp [gestureStep, hs, hp, advanceIndex, STAGE_ORDER, stageAt, colorFor]

/-- Witness for C5 at the initial state: a direct first CLOSED starts the
experience at index 1 with the EARTH color. -/
theorem C5_witness :
    (gestureStep initState HandGesture.CLOSED).started = true ∧
    (gestureStep initState HandGesture.CLOSED).stageIdx = 1 ∧
    (gestureStep initState HandGesture.CLOSED).color = ColorName.EARTH :=
  ⟨((C5_start_behavior initState HandGesture.CLOSED rfl).2 rfl).1,
   (((C5_start_behavior initState HandGesture.CLOSED rfl).2 rfl).2.1 (by decide)).1,
   (((C5_start_behavior initState HandGesture.CLOSED rfl).2 rfl).2.1 (by decide)).2⟩

section Animator

variable (K : Type) [LinearOrderedField K]

/-- Squared Euclidean distance between two 3D points. -/
def distSq (a b : K × K × K) : K :=
  (a.1 - b.1) ^ 2 + (a.2.1 - b.2.1) ^ 2 + (a.2.2 - b.2.2) ^ 2

/-- Floor collision from `src/unnamed/part_001` line 117:
`if (positions[i*3+1] < -10) positions[i*3+1] = -10`. -/
def clampFloor (p : K × K × K) : K × K × K :=
  if p.2.1 < -10 then (p.1, -10, p.2.2) else p

/-- Per-particle step of the standard morphing branch of useFrame in
`src/unnamed/part_001` lines 121-156.  The arguments c and s stand for the
values of Math.cos(rotSpeed) and Math.sin(rotSpeed) with
rotSpeed = 0.5 * delta, which the code applies only in the EARTH stage
while the gesture is CLOSED; rnd3 carries the three Math.random() values
the INTRO disperse branch draws for this particle. -/
def morphStep (stage : AppStage) (gesture : HandGesture) (delta c s : K)
    (rnd3 : K × K × K) (p t : K × K × K) : K × K × K :=
  let speed : K := if gesture = HandGesture.CLOSED then 4 else 5 / 2
  let tgt : K × K × K :=
    if gesture = HandGesture.CLOSED then t
    else if stage = AppStage.INTRO then
      (p.1 + (rnd3.1 - 1 / 2) * (1 / 10),
       p.2.1 + (rnd3.2.1 - 1 / 2) * (1 / 10),
       p.2.2 + (rnd3.2.2 - 1 / 2) * (1 / 10))
    else (t.1 * 2, t.2.1 * 2, t.2.2 * 2)
  let q : K × K × K :=
    (p.1 + (tgt.1 - p.1) * speed * delta,
     p.2.1 + (tgt.2.1 - p.2.1) * speed * delta,
     p.2.2 + (tgt.2.2 - p.2.2) * speed * delta)
  if stage = AppStage.EARTH ∧ gesture = HandGesture.CLOSED then
    (q.1 * c - q.2.2 * s, q.2.1, q.1 * s + q.2.2 * c)
  else q

/-- Per-particle step of the fireworks physics branch of useFrame in
`src/unnamed/part_001` lines 82-117, returning the updated velocity-buffer
entry and the updated position.  Note that the code stores back only the
vertical velocity component (line 109); the horizontal burst scaling is
applied to local copies and discarded. -/
def fireworksStep (delta elapsed : K) (v p : K × K × K) :
    (K × K × K) × (K × K × K) :=
  if elapsed < 3 / 5 then
    (v, clampFloor K
      (p.1 + v.1 * delta, p.2.1 + v.2.1 * delta, p.2.2 + v.2.2 * delta))
  else
    let vyG := v.2.1 - 98 / 10 * delta * (1 / 2)
    let vx := if elapsed < 7 / 10 then v.1 * (11 / 10) else v.1
    let vz := if elapsed < 7 / 10 then v.2.2 * (11 / 10) else v.2.2
    let vy := if elapsed < 7 / 10 then vyG * (1 / 2) else vyG
    ((v.1, vy, v.2.2),
     clampFloor K
       (p.1 + vx * delta * 2, p.2.1 + vy * delta, p.2.2 + vz * delta * 2))

/-- Initial fireworks velocity assignment from the gesture effect in
`src/unnamed/part_001` lines 58-62: small random X and Z drift and an
upward Y launch speed, from three Math.random() values. -/
def initVelocity (r1 r2 r3 : K) : K × K × K :=
  ((r1 - 1 / 2) * (1 / 2), 5 + r2 * 5, (r3 - 1 / 2) * (1 / 2))

/-- One invocation of the useFrame callback of `src/unnamed/part_001`
lines 67-158, acting on the whole particle set: in fireworks mode
(stage FIREWORKS with gesture OPEN) every particle follows the projectile
physics and the velocity buffer receives the stored vertical components;
otherwise every particle follows the standard morphing step and the
velocity buffer is untouched.  The stream rnd supplies the Math.random()
values, three per particle index. -/
def frameStep (stage : AppStage) (gesture : HandGesture)
    (delta c s elapsed : K) (rnd : ℕ → K)
    (positions velocities target : List (K × K × K)) :
    List (K × K × K) × List (K × K × K) :=
  if stage = AppStage.FIREWORKS ∧ gesture = HandGesture.OPEN then
    let pv := List.zipWith (fun p v => fireworksStep K delta elapsed v p)
      positions velocities
    (pv.map Prod.snd, pv.map Prod.fst)
  else
    (((positions.zip target).enum).map
      (fun iz => morphStep K stage gesture delta c s
        (rnd (3 * iz.1), rnd (3 * iz.1 + 1), rnd (3 * iz.1 + 2))
        iz.2.1 iz.2.2),
     velocities)

end Animator

/-- Helper: every element of a zipWith list is the image of some pair. -/
theorem exists_of_mem_zipWith {α β γ : Type} (f : α → β → γ) :
    ∀ (l₁ : List α) (l₂ : List β) (x : γ),
      x ∈ List.zipWith f l₁ l₂ → ∃ a b, x = f a b
  | [], _, x, h => by simp at h
  | _ :: _, [], x, h => by simp at h
  | a :: l₁, b :: l₂, x, h => by
    rcases (List.mem_cons).mp h with h | h
    · exact ⟨a, b, h⟩
    · exact exists_of_mem_zipWith f l₁ l₂ x h

/-- Helper: the fireworks step never leaves a particle below the floor. -/
theorem fireworksStep_y_ge (delta elapsed : ℚ) (v p : ℚ × ℚ × ℚ) :
    -10 ≤ ((fireworksStep ℚ delta elapsed v p).2).2.1 := by
  have hcl : ∀ q : ℚ × ℚ × ℚ, -10 ≤ (clampFloor ℚ q).2.1 := by
    intro q
    unfold clampFloor
    split_ifs with h
    · norm_num
    · exact le_of_not_lt h
  unfold fireworksStep
  split_ifs <;> exact hcl _

/-- C3: in finale mode (stage FIREWORKS, gesture OPEN), after any frame
step of the animator every particle has vertical position at least the
floor value -10. -/
theorem C3_floor_clamp (delta c s elapsed : ℚ) (rnd : ℕ → ℚ)
    (positions velocities target : List (ℚ × ℚ × ℚ)) (p : ℚ × ℚ × ℚ)
    (hp : p ∈ (frameStep ℚ AppStage.FIREWORKS HandGesture.OPEN delta c s
      elapsed rnd positions velocities target).1) :
    -10 ≤ p.2.1 := by
  simp only [frameStep, and_self, if_true, reduceIte] at hp
  rcases List.mem_map.mp hp with ⟨pair, hpair, rfl⟩
  obtain ⟨a, b, rfl⟩ := exists_of_mem_zipWith _ _ _ _ hpair
  exact fireworksStep_y_ge delta elapsed b a

/-- Witness for C3: a single particle dropped from height -50 with zero
velocity is clamped to the floor, whose position satisfies the bound. -/
theorem C3_witness : -10 ≤ (((0 : ℚ), (-10 : ℚ), (0 : ℚ))).2.1 :=
  C3_floor_clamp 1 0 0 0 (fun _ => 0) [(0, -50, 0)] [(0, 0, 0)] []
    (0, -10, 0) (by norm_num [frameStep, fireworksStep, clampFloor])

/-- C9: immediately after entering finale mode, each particle receives a
strictly positive vertical velocity inside the band [5, 10), and the
horizontal X and Z drift components are small (at most 1/4 in absolute
value). -/
theorem C9_launch_velocity (r1 r2 r3 : ℚ)
    (h1 : 0 ≤ r1 ∧ r1 < 1) (h2 : 0 ≤ r2 ∧ r2 < 1) (h3 : 0 ≤ r3 ∧ r3 < 1) :
    0 < (initVelocity ℚ r1 r2 r3).2.1 ∧
    5 ≤ (initVelocity ℚ r1 r2 r3).2.1 ∧
    (initVelocity ℚ r1 r2 r3).2.1 < 10 ∧
    |(initVelocity ℚ r1 r2 r3).1| ≤ 1 / 4 ∧
    |(initVelocity ℚ r1 r2 r3).2.2| ≤ 1 / 4 := by
  obtain ⟨h1a, h1b⟩ := h1
  obtain ⟨h2a, h2b⟩ := h2
  obtain ⟨h3a, h3b⟩ := h3
  simp only [initVelocity]
  refine ⟨by linarith, by linarith, by linarith, abs_le.mpr ⟨by linarith, by linarith⟩,
    abs_le.mpr ⟨by linarith, by linarith⟩⟩

/-- Witness for C9 at the midpoint random draw. -/
theorem C9_witness :
    0 < (initVelocity ℚ (1/2) (1/2) (1/2)).2.1 ∧
    5 ≤ (initVelocity ℚ (1/2) (1/2) (1/2)).2.1 ∧
    (initVelocity ℚ (1/2) (1/2) (1/2)).2.1 < 10 ∧
    |(initVelocity ℚ (1/2) (1/2) (1/2)).1| ≤ 1 / 4 ∧
    |(initVelocity ℚ (1/2) (1/2) (1/2)).2.2| ≤ 1 / 4 :=
  C9_launch_velocity (1/2) (1/2) (1/2) (by norm_num) (by norm_num) (by norm_num)

/-- C10: in any frame whose mode is not the finale projectile simulation,
the frame step returns the velocity buffer unchanged, and the updated
positions do not depend on the velocity buffer at all. -/
theorem C10_velocity_untouched (stage : AppStage) (gesture : HandGesture)
    (h : ¬(stage = AppStage.FIREWORKS ∧ gesture = HandGesture.OPEN))
    (delta c s elapsed : ℚ) (rnd : ℕ → ℚ)
    (positions v1 v2 target : List (ℚ × ℚ × ℚ)) :
    (frameStep ℚ stage gesture delta c s elapsed rnd positions v1 target).2 = v1 ∧
    (frameStep ℚ stage gesture delta c s elapsed rnd positions v1 target).1 =
      (frameStep ℚ stage gesture delta c s elapsed rnd positions v2 target).1 := by
  simp [frameStep, h]

/-- Witness for C10: a concrete non-finale frame (HEART stage, CLOSED
gesture) keeps a nonzero residual velocity buffer unchanged and produces
positions independent of it. -/
theorem C10_witness :
    (frameStep ℚ AppStage.HEART HandGesture.CLOSED 1 0 0 0 (fun _ => 0)
      [(1, 2, 3)] [(4, 5, 6)] [(0, 0, 0)]).2 = [(4, 5, 6)] ∧
    (frameStep ℚ AppStage.HEART HandGesture.CLOSED 1 0 0 0 (fun _ => 0)
      [(1, 2, 3)] [(4, 5, 6)] [(0, 0, 0)]).1 =
    (frameStep ℚ AppStage.HEART HandGesture.CLOSED 1 0 0 0 (fun _ => 0)
      [(1, 2, 3)] [(0, 0, 0)] [(0, 0, 0)]).1 :=
  C10_velocity_untouched AppStage.HEART HandGesture.CLOSED (by decide)
    1 0 0 0 (fun _ => 0) [(1, 2, 3)] [(4, 5, 6)] [(0, 0, 0)] [(0, 0, 0)]

/-- Helper: with gesture CLOSED, a stage other than EARTH, and frame delta
1/60, the morph step is the plain lerp toward the target and the squared
distance to the target contracts by the exact factor 196/225 per frame. -/
theorem morphStep_closed_contract (stage : AppStage)
    (hst : stage ≠ AppStage.EARTH) (c s : ℚ) (r t : ℚ × ℚ × ℚ)
    (q : ℚ × ℚ × ℚ) :
    distSq ℚ (morphStep ℚ stage HandGesture.CLOSED (1/60) c s r q t) t
      = 196 / 225 * distSq ℚ q t := by
  have h4 : morphStep ℚ stage HandGesture.CLOSED (1/60) c s r q t
      = (q.1 + (t.1 - q.1) * 4 * (1/60),
         q.2.1 + (t.2.1 - q.2.1) * 4 * (1/60),
         q.2.2 + (t.2.2 - q.2.2) * 4 * (1/60)) := by
    simp [morphStep, hst]
  rw [h4]
  unfold distSq
  ring

/-- Helper: the EARTH morph step with gesture CLOSED at a particle already
sitting on its target applies the pure rotation. -/
theorem morphStep_earth_self (K : Type) [LinearOrderedField K]
    (delta c s : K) (r p : K × K × K) :
    morphStep K AppStage.EARTH HandGesture.CLOSED delta c s r p p
      = (p.1 * c - p.2.2 * s, p.2.1, p.1 * s + p.2.2 * c) := by
  simp [morphStep]

/-- C2 as amended: with gesture CLOSED on every frame at delta 1/60 and a
fixed target, for every stage other than EARTH (whose extra per-frame
rotation is exempt) the squared distance of a particle to its target
contracts by the exact factor 196/225 = (1 - 4/60)^2 each frame, hence
strictly decreases whenever it is positive, and after 90 frames any
initial squared distance of at most 2000 has fallen below 1/100. -/
theorem C2_convergence (stage : AppStage) (hst : stage ≠ AppStage.EARTH)
    (c s : ℚ) (r p t : ℚ × ℚ × ℚ) :
    distSq ℚ (morphStep ℚ stage HandGesture.CLOSED (1/60) c s r p t) t
      = 196 / 225 * distSq ℚ p t ∧
    (0 < distSq ℚ p t →
      distSq ℚ (morphStep ℚ stage HandGesture.CLOSED (1/60) c s r p t) t
        < distSq ℚ p t) ∧
    (∀ n : ℕ,
      distSq ℚ
        ((fun q => morphStep ℚ stage HandGesture.CLOSED (1/60) c s r q t)^[n] p) t
        = (196 / 225) ^ n * distSq ℚ p t) ∧
    (distSq ℚ p t ≤ 2000 →
      distSq ℚ
        ((fun q => morphStep ℚ stage HandGesture.CLOSED (1/60) c s r q t)^[90] p) t
        < 1 / 100) := by
  have key := morphStep_closed_contract stage hst c s r t
  have iter : ∀ n : ℕ,
      distSq ℚ
        ((fun q => morphStep ℚ stage HandGesture.CLOSED (1/60) c s r q t)^[n] p) t
        = (196 / 225) ^ n * distSq ℚ p t := by
    intro n
    induction n with
    | zero => simp
    | succ k ih =>
      rw [Function.iterate_succ_apply']
      simp only [key]
      rw [ih]
      ring
  refine ⟨key p, fun hpos => ?_, iter, fun hb => ?_⟩
  · rw [key p]
    linarith
  · rw [iter 90]
    have hq : ((196 : ℚ) / 225) ^ (90 : ℕ) < 1 / 200000 := by norm_num
    have hq0 : (0 : ℚ) ≤ (196 / 225) ^ (90 : ℕ) := by positivity
    calc ((196 : ℚ) / 225) ^ (90 : ℕ) * distSq ℚ p t
        ≤ (196 / 225) ^ (90 : ℕ) * 2000 := by
          exact mul_le_mul_of_nonneg_left hb hq0
      _ < (1 / 200000) * 2000 := by
          exact mul_lt_mul_of_pos_right hq (by norm_num)
      _ = 1 / 100 := by norm_num

/-- C2 counterexample: the claim as stated fails in two reachable frames.
First, a particle already exactly on its target (HEART stage, gesture
CLOSED, delta 1/60) keeps distance zero, which does not strictly decrease.
Second, in the EARTH stage the extra per-frame rotation moves a particle
that sits on its target strictly away from it, so its distance to the
fixed target strictly increases; here the rotation arguments are the code
values Math.cos(0.5 * delta) and Math.sin(0.5 * delta) at delta 1/60. -/
theorem C2_counterexample :
    ¬(distSq ℚ (morphStep ℚ AppStage.HEART HandGesture.CLOSED (1/60) 0 0
        (0,0,0) (1,2,3) (1,2,3)) (1,2,3)
      < distSq ℚ ((1:ℚ),(2:ℚ),(3:ℚ)) (1,2,3)) ∧
    distSq ℝ ((4:ℝ),(0:ℝ),(0:ℝ)) (4,0,0)
      < distSq ℝ (morphStep ℝ AppStage.EARTH HandGesture.CLOSED (1/60)
          (Real.cos (1/2 * (1/60))) (Real.sin (1/2 * (1/60))) (0,0,0)
          (4,0,0) (4,0,0)) (4,0,0) := by
  constructor
  · have hne : AppStage.HEART ≠ AppStage.EARTH := by decide
    norm_num [morphStep, distSq, hne]
  · have hπ : (3:ℝ) < Real.pi := Real.pi_gt_three
    have hc1 : Real.cos ((1:ℝ)/2 * (1/60)) < 1 := by
      have hne : Real.cos ((1:ℝ)/2 * (1/60)) ≠ 1 := by
        intro h
        rw [show ((1:ℝ)/2 * (1/60)) = 1/120 by norm_num] at h
        rw [Real.cos_eq_one_iff_of_lt_of_lt (by linarith) (by linarith)] at h
        norm_num at h
      exact lt_of_le_of_ne (Real.cos_le_one _) hne
    rw [morphStep_earth_self ℝ]
    unfold distSq
    have hs2 := sq_nonneg (Real.sin ((1:ℝ)/2 * (1/60)))
    nlinarith [mul_pos
      (show (0:ℝ) < 4 - 4 * Real.cos ((1:ℝ)/2 * (1/60)) by linarith)
      (show (0:ℝ) < 4 - 4 * Real.cos ((1:ℝ)/2 * (1/60)) by linarith), hs2]

/-- Witness for C2 at a concrete particle one unit away from its target in
the HEART stage: one frame contracts the squared distance by 196/225 and
strictly decreases it, and 90 frames bring it below 1/100. -/
theorem C2_witness :
    distSq ℚ (morphStep ℚ AppStage.HEART HandGesture.CLOSED (1/60) 0 0
        (0,0,0) (1,0,0) (0,0,0)) (0,0,0)
      = 196 / 225 * distSq ℚ ((1:ℚ),(0:ℚ),(0:ℚ)) (0,0,0) ∧
    distSq ℚ (morphStep ℚ AppStage.HEART HandGesture.CLOSED (1/60) 0 0
        (0,0,0) (1,0,0) (0,0,0)) (0,0,0)
      < distSq ℚ ((1:ℚ),(0:ℚ),(0:ℚ)) (0,0,0) ∧
    distSq ℚ
      ((fun q => morphStep ℚ AppStage.HEART HandGesture.CLOSED (1/60) 0 0
          (0,0,0) q (0,0,0))^[90] (1,0,0)) (0,0,0) < 1 / 100 := by
  have h := C2_convergence AppStage.HEART (by decide) 0 0 (0,0,0) (1,0,0) (0,0,0)
  have hpos : 0 < distSq ℚ ((1:ℚ),(0:ℚ),(0:ℚ)) (0,0,0) := by norm_num [distSq]
  have hle : distSq ℚ ((1:ℚ),(0:ℚ),(0:ℚ)) (0,0,0) ≤ 2000 := by norm_num [distSq]
  exact ⟨h.1, h.2.1 hpos, h.2.2.2 hle⟩

/-- Pseudo-random noise function from `src/utils/shapes.ts` lines 121-123:
sin(10x) * cos(10y) * sin(10z). -/
noncomputable def noise (x y z : ℝ) : ℝ :=
  Real.sin (x * 10) * Real.cos (y * 10) * Real.sin (z * 10)

/-- Inclination of lattice point i of the golden-angle sphere generator:
the normalized y coordinate computed at `src/utils/shapes.ts` line 130,
y = 1 - (i / (count - 1)) * 2, before any radius scaling. -/
def sphereInclination (count i : ℕ) : ℚ :=
  1 - ((i : ℚ) / ((count : ℚ) - 1)) * 2

noncomputable section RealGenerators

/-- Point i of generateSphere from `src/utils/shapes.ts` lines 125-147:
golden-angle lattice with terrain noise added to the radius. -/
def spherePoint (count : ℕ) (radius : ℝ) (i : ℕ) : ℝ × ℝ × ℝ :=
  let y : ℝ := 1 - ((i : ℝ) / ((count : ℝ) - 1)) * 2
  let radiusAtY : ℝ := Real.sqrt (1 - y * y)
  let theta : ℝ := (Real.pi * (3 - Real.sqrt 5)) * i
  let x : ℝ := Real.cos theta * radiusAtY
  let z : ℝ := Real.sin theta * radiusAtY
  let n : ℝ := |noise x y z|
  let r : ℝ := radius + (if 1 / 2 < n then n * (1 / 2) else 0)
  (x * r, y * r, z * r)

/-- Sphere generator over all indices 0 .. count-1. -/
def generateSphere (count : ℕ) (radius : ℝ) : List (ℝ × ℝ × ℝ) :=
  (List.range count).map (spherePoint count radius)

/-- Point i of generateEverest from `src/utils/shapes.ts` lines 149-167:
polar disk sampling with exponentially decaying height plus jitter; the
three Math.random() draws of iteration i are rnd (3i), rnd (3i+1) and
rnd (3i+2). -/
def everestPoint (rnd : ℕ → ℝ) (i : ℕ) : ℝ × ℝ × ℝ :=
  let angle : ℝ := rnd (3 * i) * Real.pi * 2
  let r : ℝ := Real.sqrt (rnd (3 * i + 1)) * 9
  let height : ℝ :=
    10 * Real.exp (-r * (4 / 10)) - 4 + (rnd (3 * i + 2) - 1 / 2) * (3 / 2)
  (Real.cos angle * r, height, Real.sin angle * r)

/-- Everest generator over all indices. -/
def generateEverest (count : ℕ) (rnd : ℕ → ℝ) : List (ℝ × ℝ × ℝ) :=
  (List.range count).map (everestPoint rnd)

/-- Point i of generateHeart from `src/utils/shapes.ts` lines 169-193:
parametric heart curve at a random parameter, with depth jitter scaled by
the thickness profile.  The second draw of the iteration (the variable u
in the source) is read but never used. -/
def heartPoint (rnd : ℕ → ℝ) (i : ℕ) : ℝ × ℝ × ℝ :=
  let t : ℝ := rnd (3 * i) * Real.pi * 2
  let x : ℝ := 16 * Real.sin t ^ 3 * (2 / 10)
  let y : ℝ :=
    (13 * Real.cos t - 5 * Real.cos (2 * t) - 2 * Real.cos (3 * t)
      - Real.cos (4 * t)) * (2 / 10)
  let zScale : ℝ := |x| * (1 / 2) + 1
  let z : ℝ := (rnd (3 * i + 2) - 1 / 2) * 2 * zScale
  (x, y + 1, z)

/-- Heart generator over all indices. -/
def generateHeart (count : ℕ) (rnd : ℕ → ℝ) : List (ℝ × ℝ × ℝ) :=
  (List.range count).map (heartPoint rnd)

end RealGenerators

/-- Point i of generateRandom from `src/utils/shapes.ts` lines 244-253:
uniform cube of half-width 20 on every axis. -/
def randomPoint (rnd : ℕ → ℚ) (i : ℕ) : ℚ × ℚ × ℚ :=
  ((rnd (3 * i) - 1 / 2) * 40,
   (rnd (3 * i + 1) - 1 / 2) * 40,
   (rnd (3 * i + 2) - 1 / 2) * 40)

/-- Random-cloud generator over all indices. -/
def generateRandom (count : ℕ) (rnd : ℕ → ℚ) : List (ℚ × ℚ × ℚ) :=
  (List.range count).map (randomPoint rnd)

/-- Bright-pixel extraction of generateText, from `src/utils/shapes.ts`
lines 218-225: scan the RGBA byte array with stride 4 and, for every pixel
whose red channel value exceeds 100, record the centered x coordinate and
the flipped y coordinate on the 512-pixel canvas.  The canvas bitmap
itself comes from the browser and is modelled as the input byte list. -/
def validPixels (data : List ℕ) : List ℤ :=
  (List.range ((data.length + 3) / 4)).flatMap (fun k =>
    if 100 < data.getD (4 * k) 0 then
      [((k % 512 : ℕ) : ℤ) - 256, 256 - ((k / 512 : ℕ) : ℤ)]
    else [])

/-- Flattening of a list of coordinate triples into the flat layout of the
Float32Array position buffers (x, y, z at indices 3i, 3i+1, 3i+2). -/
def flat3 {α : Type} : List (α × α × α) → List α
  | [] => []
  | p :: r => p.1 :: p.2.1 :: p.2.2 :: flat3 r

/-- Helper: flat3 triples the length. -/
theorem flat3_length {α : Type} :
    ∀ l : List (α × α × α), (flat3 l).length = 3 * l.length
  | [] => rfl
  | p :: r => by
    simp only [flat3, List.length_cons, flat3_length r]
    omega

/-- generateText from `src/utils/shapes.ts` lines 195-242: when the bright
pixel list is empty (blank bitmap or missing 2D context) the freshly
allocated zero array of length 3*count is returned unchanged; otherwise
each particle samples a pixel pair with replacement at index
floor(random * (len/2)) * 2, scales it by 0.04, and draws a small random
depth.  The two Math.random() draws of particle i are rnd (2i) and
rnd (2i+1). -/
def generateText (count : ℕ) (data : List ℕ) (rnd : ℕ → ℚ) : List ℚ :=
  let vp := validPixels data
  if vp = [] then List.replicate (3 * count) 0
  else
    flat3 ((List.range count).map (fun i =>
      let randomIdx := (⌊rnd (2 * i) * ((vp.length : ℚ) / 2)⌋).toNat * 2
      (((vp.getD randomIdx 0 : ℤ) : ℚ) * (4 / 100),
       ((vp.getD (randomIdx + 1) 0 : ℤ) : ℚ) * (4 / 100),
       (rnd (2 * i + 1) - 1 / 2) * (1 / 2))))

/-- C4 counterexample: at count 4, the adjacent lattice points 0 and 1
differ in inclination by 2/3, which exceeds the claimed bound 2/N = 1/2. -/
theorem C4_counterexample :
    ¬(|sphereInclination 4 1 - sphereInclination 4 0| ≤ 2 / 4) := by
  have h1 : sphereInclination 4 1 = 1 / 3 := by norm_num [sphereInclination]
  have h0 : sphereInclination 4 0 = 1 := by norm_num [sphereInclination]
  rw [h1, h0, show (1 : ℚ) / 3 - 1 = -(2 / 3) by norm_num, abs_neg,
    abs_of_pos (by norm_num : (0 : ℚ) < 2 / 3)]
  norm_num

/-- C4 as amended: for every count N at least 2, adjacent-index sphere
lattice points differ in inclination by exactly 2/(N-1), so in particular
by no more than 2/(N-1); the claimed bound 2/N is below this exact gap. -/
theorem C4_adjacent_inclination (N : ℕ) (hN : 2 ≤ N) (i : ℕ)
    (hi : i + 1 < N) :
    |sphereInclination N (i + 1) - sphereInclination N i|
      = 2 / ((N : ℚ) - 1) := by
  have h2 : (2 : ℚ) ≤ (N : ℚ) := by exact_mod_cast hN
  have hpos : (0 : ℚ) < (N : ℚ) - 1 := by linarith
  unfold sphereInclination
  push_cast
  have key : (1 - (((i : ℚ) + 1) / ((N : ℚ) - 1)) * 2)
      - (1 - ((i : ℚ) / ((N : ℚ) - 1)) * 2) = -(2 / ((N : ℚ) - 1)) := by
    field_simp
    ring
  rw [key, abs_neg, abs_of_pos (by positivity)]

/-- Witness for C4 at N = 5, i = 2: the adjacent inclination gap is
exactly 2/(5-1). -/
theorem C4_witness :
    |sphereInclination 5 3 - sphereInclination 5 2| = 1 / 2 := by
  have h := C4_adjacent_inclination 5 (by norm_num) 2 (by norm_num)
  norm_num at h
  exact h

/-- C6: if no sampled pixel of the rendered glyph bitmap exceeds the
brightness threshold 100, then the text generator returns exactly the
all-zero array of length 3*count; the generator is a total function, so it
cannot fail. -/
theorem C6_text_blank (count : ℕ) (data : List ℕ) (rnd : ℕ → ℚ)
    (h : ∀ k, data.getD (4 * k) 0 ≤ 100) :
    generateText count data rnd = List.replicate (3 * count) 0 := by
  have hvp : validPixels data = [] := by
    unfold validPixels
    rw [List.flatMap_eq_nil_iff]
    intro k hk
    rw [if_neg (not_lt.mpr (h k))]
  simp [generateText, hvp]

/-- Witness for C6: a one-pixel bitmap below the threshold produces the
zero array for a single particle. -/
theorem C6_witness : generateText 1 [7] (fun _ => 0) = [0, 0, 0] := by
  have hb : ∀ k, ([7] : List ℕ).getD (4 * k) 0 ≤ 100 := by
    intro k
    rcases k with _ | k
    · norm_num
    · rw [List.getD_eq_default] <;> simp <;> omega
  have h := C6_text_blank 1 [7] (fun _ => 0) hb
  simpa using h

/-- C7: every shape generator returns a full-length output (N particle
triples, hence 3N buffer entries; the text generator directly returns the
flat array of length 3N), and the frame step maps length-N current,
velocity and target buffers to length-N updated buffers, in every stage
and gesture mode. -/
theorem C7_buffer_lengths (N : ℕ) (radius : ℝ) (rndR : ℕ → ℝ)
    (rndQ : ℕ → ℚ) (data : List ℕ) (stage : AppStage)
    (gesture : HandGesture) (delta c s elapsed : ℚ)
    (positions velocities target : List (ℚ × ℚ × ℚ))
    (hp : positions.length = N) (hv : velocities.length = N)
    (ht : target.length = N) :
    (generateSphere N radius).length = N ∧
    (flat3 (generateSphere N radius)).length = 3 * N ∧
    (generateEverest N rndR).length = N ∧
    (flat3 (generateEverest N rndR)).length = 3 * N ∧
    (generateHeart N rndR).length = N ∧
    (flat3 (generateHeart N rndR)).length = 3 * N ∧
    (generateRandom N rndQ).length = N ∧
    (flat3 (generateRandom N rndQ)).length = 3 * N ∧
    (generateText N data rndQ).length = 3 * N ∧
    (frameStep ℚ stage gesture delta c s elapsed rndQ positions velocities
        target).1.length = N ∧
    (frameStep ℚ stage gesture delta c s elapsed rndQ positions velocities
        target).2.length = N := by
  refine ⟨?_, ?_, ?_, ?_, ?_, ?_, ?_, ?_, ?_, ?_, ?_⟩
  · simp [generateSphere]
  · simp [generateSphere, flat3_length]
  · simp [generateEverest]
  · simp [generateEverest, flat3_length]
  · simp [generateHeart]
  · simp [generateHeart, flat3_length]
  · simp [generateRandom]
  · simp [generateRandom, flat3_length]
  · simp only [generateText]
    split_ifs with h
    · simp
    · simp [flat3_length]
  · unfold frameStep
    split_ifs with h
    · simp [List.length_zipWith, hp, hv]
    · simp [List.enum_length, List.length_zip, hp, ht]
  · unfold frameStep
    split_ifs with h
    · simp [List.length_zipWith, hp, hv]
    · simpa using hv

/-- Witness for C7 with one particle and concrete buffers. -/
theorem C7_witness :
    (generateSphere 1 4).length = 1 ∧
    (flat3 (generateSphere 1 4)).length = 3 * 1 ∧
    (generateEverest 1 (fun _ => 0)).length = 1 ∧
    (flat3 (generateEverest 1 (fun _ => 0))).length = 3 * 1 ∧
    (generateHeart 1 (fun _ => 0)).length = 1 ∧
    (flat3 (generateHeart 1 (fun _ => 0))).length = 3 * 1 ∧
    (generateRandom 1 (fun _ => 0)).length = 1 ∧
    (flat3 (generateRandom 1 (fun _ => 0))).length = 3 * 1 ∧
    (generateText 1 [200, 0, 0, 0] (fun _ => 0)).length = 3 * 1 ∧
    (frameStep ℚ AppStage.EARTH HandGesture.NONE 0 0 0 0 (fun _ => 0)
        [(0, 0, 0)] [(0, 0, 0)] [(0, 0, 0)]).1.length = 1 ∧
    (frameStep ℚ AppStage.EARTH HandGesture.NONE 0 0 0 0 (fun _ => 0)
        [(0, 0, 0)] [(0, 0, 0)] [(0, 0, 0)]).2.length = 1 :=
  C7_buffer_lengths 1 4 (fun _ => 0) (fun _ => 0) [200, 0, 0, 0]
    AppStage.EARTH HandGesture.NONE 0 0 0 0
    [(0, 0, 0)] [(0, 0, 0)] [(0, 0, 0)] rfl rfl rfl

/-- Helper: bounds for a single Everest point under in-range randoms. -/
theorem everestPoint_bounds (rnd : ℕ → ℝ)
    (h : ∀ k, 0 ≤ rnd k ∧ rnd k < 1) (i : ℕ) :
    |(everestPoint rnd i).1| ≤ 20 ∧ |(everestPoint rnd i).2.1| ≤ 20 ∧
    |(everestPoint rnd i).2.2| ≤ 20 := by
  obtain ⟨h2a, h2b⟩ := h (3 * i + 1)
  obtain ⟨h3a, h3b⟩ := h (3 * i + 2)
  unfold everestPoint
  set a := rnd (3 * i) * Real.pi * 2 with ha
  set r := Real.sqrt (rnd (3 * i + 1)) * 9 with hr
  have hr0 : 0 ≤ r := by rw [hr]; positivity
  have hr9 : r ≤ 9 := by
    rw [hr]
    nlinarith [Real.sqrt_le_one.mpr h2b.le, Real.sqrt_nonneg (rnd (3 * i + 1))]
  have hexp0 : 0 < Real.exp (-r * (4 / 10)) := Real.exp_pos _
  have hexp1 : Real.exp (-r * (4 / 10)) ≤ 1 := by
    apply Real.exp_le_one_iff.mpr
    nlinarith
  refine ⟨?_, ?_, ?_⟩
  · rw [abs_mul, abs_of_nonneg hr0]
    nlinarith [Real.abs_cos_le_one a, abs_nonneg (Real.cos a),
      mul_nonneg (sub_nonneg.mpr (Real.abs_cos_le_one a)) hr0]
  · apply abs_le.mpr
    constructor <;> nlinarith
  · rw [abs_mul, abs_of_nonneg hr0]
    nlinarith [Real.abs_sin_le_one a, abs_nonneg (Real.sin a),
      mul_nonneg (sub_nonneg.mpr (Real.abs_sin_le_one a)) hr0]

/-- Helper: bounds for a single heart point under in-range randoms. -/
theorem heartPoint_bounds (rnd : ℕ → ℝ)
    (h : ∀ k, 0 ≤ rnd k ∧ rnd k < 1) (i : ℕ) :
    |(heartPoint rnd i).1| ≤ 20 ∧ |(heartPoint rnd i).2.1| ≤ 20 ∧
    |(heartPoint rnd i).2.2| ≤ 20 := by
  obtain ⟨h3a, h3b⟩ := h (3 * i + 2)
  unfold heartPoint
  set t := rnd (3 * i) * Real.pi * 2 with ht
  have hsin : |Real.sin t| ≤ 1 := Real.abs_sin_le_one t
  have hcube : |Real.sin t ^ 3| ≤ 1 := by
    rw [abs_pow]
    exact pow_le_one₀ (abs_nonneg _) hsin
  have hx : |16 * Real.sin t ^ 3 * (2 / 10)| ≤ 16 * (2 / 10) := by
    rw [abs_mul, abs_mul]
    rw [show |(16 : ℝ)| = 16 by norm_num, show |(2 : ℝ) / 10| = 2 / 10 by norm_num]
    nlinarith [abs_nonneg (Real.sin t ^ 3)]
  obtain ⟨hxl, hxr⟩ := abs_le.mp hx
  refine ⟨?_, ?_, ?_⟩
  · calc |16 * Real.sin t ^ 3 * (2 / 10)| ≤ 16 * (2 / 10) := hx
      _ ≤ 20 := by norm_num
  · obtain ⟨hc1l, hc1r⟩ := abs_le.mp (Real.abs_cos_le_one t)
    obtain ⟨hc2l, hc2r⟩ := abs_le.mp (Real.abs_cos_le_one (2 * t))
    obtain ⟨hc3l, hc3r⟩ := abs_le.mp (Real.abs_cos_le_one (3 * t))
    obtain ⟨hc4l, hc4r⟩ := abs_le.mp (Real.abs_cos_le_one (4 * t))
    apply abs_le.mpr
    constructor <;> nlinarith
  · have hd : |rnd (3 * i + 2) - 1 / 2| ≤ 1 / 2 :=
      abs_le.mpr ⟨by linarith, by linarith⟩
    have hz0 : (0 : ℝ) ≤ |16 * Real.sin t ^ 3 * (2 / 10)| * (1 / 2) + 1 := by
      positivity
    rw [abs_mul, abs_mul, abs_of_nonneg hz0,
      show |(2 : ℝ)| = 2 by norm_num]
    nlinarith [abs_nonneg (rnd (3 * i + 2) - 1 / 2),
      abs_nonneg (16 * Real.sin t ^ 3 * (2 / 10))]

/-- Helper: bounds for a single random-cloud point under in-range randoms. -/
theorem randomPoint_bounds (rnd : ℕ → ℚ)
    (h : ∀ k, 0 ≤ rnd k ∧ rnd k < 1) (i : ℕ) :
    |(randomPoint rnd i).1| ≤ 20 ∧ |(randomPoint rnd i).2.1| ≤ 20 ∧
    |(randomPoint rnd i).2.2| ≤ 20 := by
  obtain ⟨h1a, h1b⟩ := h (3 * i)
  obtain ⟨h2a, h2b⟩ := h (3 * i + 1)
  obtain ⟨h3a, h3b⟩ := h (3 * i + 2)
  unfold randomPoint
  refine ⟨abs_le.mpr ⟨by linarith, by linarith⟩,
    abs_le.mpr ⟨by linarith, by linarith⟩,
    abs_le.mpr ⟨by linarith, by linarith⟩⟩

/-- C8: every coordinate produced by the Everest (mountain), heart and
random-cloud generators is bounded by 20 in absolute value for in-range
random draws, hence always a finite number. -/
theorem C8_generator_bounds (N : ℕ) (rndR : ℕ → ℝ) (rndQ : ℕ → ℚ)
    (hR : ∀ k, 0 ≤ rndR k ∧ rndR k < 1)
    (hQ : ∀ k, 0 ≤ rndQ k ∧ rndQ k < 1) :
    (∀ p ∈ generateEverest N rndR,
      |p.1| ≤ 20 ∧ |p.2.1| ≤ 20 ∧ |p.2.2| ≤ 20) ∧
    (∀ p ∈ generateHeart N rndR,
      |p.1| ≤ 20 ∧ |p.2.1| ≤ 20 ∧ |p.2.2| ≤ 20) ∧
    (∀ p ∈ generateRandom N rndQ,
      |p.1| ≤ 20 ∧ |p.2.1| ≤ 20 ∧ |p.2.2| ≤ 20) := by
  refine ⟨?_, ?_, ?_⟩ <;> intro p hp
  · simp only [generateEverest, List.mem_map] at hp
    rcases hp with ⟨i, _, rfl⟩
    exact everestPoint_bounds rndR hR i
  · simp only [generateHeart, List.mem_map] at hp
    rcases hp with ⟨i, _, rfl⟩
    exact heartPoint_bounds rndR hR i
  · simp only [generateRandom, List.mem_map] at hp
    rcases hp with ⟨i, _, rfl⟩
    exact randomPoint_bounds rndQ hQ i

/-- Witness for C8 at a single particle with the zero random stream. -/
theorem C8_witness :
    (|(everestPoint (fun _ => 0) 0).1| ≤ 20 ∧
     |(everestPoint (fun _ => 0) 0).2.1| ≤ 20 ∧
     |(everestPoint (fun _ => 0) 0).2.2| ≤ 20) ∧
    (|(heartPoint (fun _ => 0) 0).1| ≤ 20 ∧
     |(heartPoint (fun _ => 0) 0).2.1| ≤ 20 ∧
     |(heartPoint (fun _ => 0) 0).2.2| ≤ 20) ∧
    (|(randomPoint (fun _ => 0) 0).1| ≤ 20 ∧
     |(randomPoint (fun _ => 0) 0).2.1| ≤ 20 ∧
     |(randomPoint (fun _ => 0) 0).2.2| ≤ 20) := by
  have T := C8_generator_bounds 1 (fun _ => 0) (fun _ => 0)
    (fun k => by norm_num) (fun k => by norm_num)
  have m1 : everestPoint (fun _ => 0) 0 ∈ generateEverest 1 (fun _ => 0) := by
    simp [generateEverest, List.range_succ]
  have m2 : heartPoint (fun _ => 0) 0 ∈ generateHeart 1 (fun _ => 0) := by
    simp [generateHeart, List.range_succ]
  have m3 : randomPoint (fun _ => 0) 0 ∈ generateRandom 1 (fun _ => 0) := by
    simp [generateRandom, List.range_succ]
  exact ⟨T.1 _ m1, T.2.1 _ m2, T.2.2 _ m3⟩
